import Mathlib

/-!
Verification development for the blogging-agent workflow of this repository
(source: src/blogger.py).  The Python functions are shallowly embedded as
executable Lean definitions: strings are Lean strings (lists of characters),
machine integers are Nat/Int, the external LLM and HTTP collaborators are
modelled as explicit Except-valued inputs, and the fallible optimization
node (which can raise IndexError) returns an Option.

Modelling conventions, recorded once here:
- Python str.strip / str.split() treat the six ASCII whitespace characters;
  isPySpace below lists exactly those.
- Python str.lower and the regex classes d and s are Unicode-aware; the
  embedding uses their ASCII behaviour, which is what every string occurring
  in the program and in the claims exercises.
- The two floating-point comparisons in the source (average sentence length
  against 15/20/25, and heading count against 0.7 times the outline heading
  count) are modelled by the exact rational comparisons; for the integer
  operands the program can produce, the float and rational comparisons agree.
-/

/-- The six characters Python str.strip and str.split() treat as whitespace. -/
def isPySpace (c : Char) : Bool :=
  c == ' ' || c == '\t' || c == '\n' || c == '\r' || c == '\x0b' || c == '\x0c'

/-- Python str.strip on a character list. -/
def pyStrL (l : List Char) : List Char :=
  ((l.dropWhile isPySpace).reverse.dropWhile isPySpace).reverse

/-- Python str.strip. -/
def pyStrip (s : String) : String := ⟨pyStrL s.data⟩

/-- Python str.lower (ASCII behaviour). -/
def pyLower (s : String) : String := ⟨s.data.map Char.toLower⟩

/-- Bool test that the first list is an initial segment of the second
(Python str.startswith on character lists). -/
def leadMatch : List Char → List Char → Bool
  | [], _ => true
  | _ :: _, [] => false
  | a :: as, b :: bs => a == b && leadMatch as bs

/-- Python s.startswith(pre). -/
def pyStartsWith (s pre : String) : Bool := leadMatch pre.data s.data

/-- Python substring containment (needle in hay). -/
def containsSub : List Char → List Char → Bool
  | needle, [] => leadMatch needle []
  | needle, c :: t => leadMatch needle (c :: t) || containsSub needle t

/-- Word counter for Python len(text.split()): the Bool records whether the
previous character was inside a word. -/
def wordCountAux : List Char → Bool → Nat
  | [], _ => 0
  | c :: cs, inWord =>
    if isPySpace c then wordCountAux cs false
    else (if inWord then 0 else 1) + wordCountAux cs true

/-- Python len(text.split()). -/
def pyWordCount (s : String) : Nat := wordCountAux s.data false

/-- Test for the sentence terminators of the source regex class [.!?]. -/
def isSentChar (c : Char) : Bool := c == '.' || c == '!' || c == '?'

/-- Counter for len(re.findall(r..., text)) with the pattern one-or-more
sentence terminators: counts maximal runs of terminator characters. -/
def sentRunsAux : List Char → Bool → Nat
  | [], _ => 0
  | c :: cs, inRun =>
    if isSentChar c then (if inRun then 0 else 1) + sentRunsAux cs true
    else sentRunsAux cs false

/-- Number of sentence-terminator runs in a text. -/
def sentenceCount (s : String) : Nat := sentRunsAux s.data false

/-- Characters matched by the regex class s (ASCII). -/
def reSpace (c : Char) : Bool :=
  c == ' ' || c == '\t' || c == '\n' || c == '\r' || c == '\x0b' || c == '\x0c'

/-- Scanner state for counting MULTILINE matches of hashes-space-text:
at a line start, inside a leading hash run, after the hash run and one
whitespace character, or skipping the rest of a line. -/
inductive HeadScan
  | start
  | hash
  | space
  | skip

/-- Counts the non-overlapping MULTILINE matches of the heading pattern
(one or more hashes, one whitespace-class character, then at least one
non-newline character), exactly as re.findall scans the text. -/
def countHeadingsAux : List Char → HeadScan → Nat
  | [], _ => 0
  | c :: cs, HeadScan.start =>
    if c == '#' then countHeadingsAux cs HeadScan.hash
    else if c == '\n' then countHeadingsAux cs HeadScan.start
    else countHeadingsAux cs HeadScan.skip
  | c :: cs, HeadScan.hash =>
    if c == '#' then countHeadingsAux cs HeadScan.hash
    else if reSpace c then countHeadingsAux cs HeadScan.space
    else countHeadingsAux cs HeadScan.skip
  | c :: cs, HeadScan.space =>
    if c == '\n' then countHeadingsAux cs HeadScan.start
    else 1 + countHeadingsAux cs HeadScan.skip
  | c :: cs, HeadScan.skip =>
    if c == '\n' then countHeadingsAux cs HeadScan.start
    else countHeadingsAux cs HeadScan.skip

/-- Number of markdown headings a la len(re.findall with the heading
pattern and re.MULTILINE). -/
def countHeadings (s : String) : Nat := countHeadingsAux s.data HeadScan.start

/-- Scanner for re.search of the second-level-heading pattern (line start,
two hashes, one whitespace-class character) in MULTILINE mode.  The Nat
state is 0 at a line start, 1 after one hash, 2 after two hashes, 3 when
the current line can no longer match. -/
def hasH2Aux : List Char → Nat → Bool
  | [], _ => false
  | c :: cs, 0 =>
    if c == '#' then hasH2Aux cs 1
    else if c == '\n' then hasH2Aux cs 0
    else hasH2Aux cs 3
  | c :: cs, 1 =>
    if c == '#' then hasH2Aux cs 2
    else if c == '\n' then hasH2Aux cs 0
    else hasH2Aux cs 3
  | c :: cs, 2 =>
    if reSpace c then true
    else if c == '\n' then hasH2Aux cs 0
    else hasH2Aux cs 3
  | c :: cs, _ =>
    if c == '\n' then hasH2Aux cs 0
    else hasH2Aux cs 3

/-- Whether re.search finds a second-level heading marker. -/
def hasH2 (s : String) : Bool := hasH2Aux s.data 0

/-- Python text.split on the two-newline separator, leftmost and
non-overlapping; the accumulator holds the current piece reversed. -/
def splitNNAux : List Char → List Char → List (List Char)
  | [], acc => [acc.reverse]
  | '\n' :: '\n' :: rest, acc => acc.reverse :: splitNNAux rest []
  | c :: rest, acc => splitNNAux rest (c :: acc)

/-- Python text.split on a single newline. -/
def splitNLAux : List Char → List Char → List (List Char)
  | [], acc => [acc.reverse]
  | '\n' :: rest, acc => acc.reverse :: splitNLAux rest []
  | c :: rest, acc => splitNLAux rest (c :: acc)

/-- Number of blank-line-delimited paragraphs of the content that are
nonempty after stripping and do not start with a hash, as in
content_optimization support code of calculate_content_quality_score. -/
def paragraphCount (content : String) : Nat :=
  ((splitNNAux content.data []).filter
    (fun p => !(pyStrL p).isEmpty && !(leadMatch ['#'] (pyStrL p)))).length

/-- Number of keywords whose lower-cased text occurs in the lower-cased
content (the generator expression in calculate_seo_score). -/
def matchedKeywordCount (content : String) (keywords : List String) : Nat :=
  (keywords.filter (fun k => containsSub (pyLower k).data (pyLower content).data)).length

/-- ContentAnalyzer.calculate_readability_score.  The float average
words/sentences is compared with 15, 20, 25 by the exact equivalent
integer comparisons. -/
def calculate_readability_score (text : String) : Nat :=
  let sentences := sentenceCount text
  let words := pyWordCount text
  if sentences = 0 then 0
  else if words < 15 * sentences then 85
  else if words < 20 * sentences then 75
  else if words < 25 * sentences then 65
  else 50

/-- ContentAnalyzer.calculate_seo_score. -/
def calculate_seo_score (content topic : String) (keywords : List String) : Int :=
  let score0 : Int := 60
  let score1 := if pyStartsWith (pyStrip content) "# " = true then score0 + 15 else score0
  let wc := pyWordCount content
  let score2 := if 500 ≤ wc ∧ wc ≤ 2000 then score1 + 20
                else if wc < 300 then score1 - 20 else score1
  let score3 := if containsSub (pyLower topic).data (pyLower content).data = true
                then score2 + 10 else score2
  let score4 := score3 + min ((matchedKeywordCount content keywords : Int) * 3) 15
  let score5 := if hasH2 content = true then score4 + 10 else score4
  min score5 100

/-- ContentAnalyzer.calculate_content_quality_score.  The float comparison
against 0.7 times the outline heading count is modelled exactly. -/
def calculate_content_quality_score (content outline : String) : Nat :=
  let score0 : Nat := 50
  let score1 := if 7 * countHeadings outline ≤ 10 * countHeadings content
                then score0 + 20 else score0
  let score2 := if (containsSub "introduction".data (pyLower content).data
                    || pyStartsWith content "# ") = true then score1 + 10 else score1
  let score3 := if (containsSub "conclusion".data (pyLower content).data
                    || containsSub "summary".data (pyLower content).data) = true
                then score2 + 10 else score2
  let score4 := if 5 ≤ paragraphCount content then score3 + 10 else score3
  min score4 100

/-- One parsed post record of the feed response (the fields blogger.py
reads, with the .get defaults for url, selftext and stickied already
applied by the parse). -/
structure RedditPost where
  title : String
  score : Int
  num_comments : Int
  subreddit : String
  created_utc : Int
  url : String
  selftext : String
  over_18 : Bool
  stickied : Bool
  deriving Inhabited, DecidableEq

/-- One topic candidate dict.  Option models key absence: fetched topics
carry all seven keys, the hardcoded fallback topics only the first four. -/
structure Topic where
  title : String
  score : Int
  num_comments : Int
  subreddit : String
  created_utc : Option Int
  url : Option String
  selftext : Option String
  deriving Inhabited, DecidableEq

/-- The filter applied to each fetched post in TopicFetcher.fetch_reddit_topics. -/
def passes_filter (p : RedditPost) : Bool :=
  decide (1000 < p.score) && !p.over_18 && decide (p.title.length < 200)
    && decide (10 < p.title.length) && !p.stickied

/-- The topic dict built from a post that passed the filter. -/
def mk_topic (p : RedditPost) : Topic :=
  { title := p.title, score := p.score, num_comments := p.num_comments,
    subreddit := p.subreddit, created_utc := some p.created_utc, url := some p.url,
    selftext := some (if p.selftext ≠ "" then p.selftext.take 200 ++ "..." else "") }

/-- TopicFetcher._get_fallback_topics, the hardcoded list. -/
def get_fallback_topics : List Topic :=
  [{ title := "The Future of Artificial Intelligence in 2024", score := 5000,
     num_comments := 200, subreddit := "technology",
     created_utc := none, url := none, selftext := none },
   { title := "Climate Change Solutions That Actually Work", score := 4500,
     num_comments := 180, subreddit := "environment",
     created_utc := none, url := none, selftext := none },
   { title := "Remote Work Best Practices for Productivity", score := 4000,
     num_comments := 150, subreddit := "productivity",
     created_utc := none, url := none, selftext := none },
   { title := "Cybersecurity Trends Every Developer Should Know", score := 3800,
     num_comments := 120, subreddit := "programming",
     created_utc := none, url := none, selftext := none },
   { title := "Mental Health in the Digital Age", score := 3500,
     num_comments := 190, subreddit := "psychology",
     created_utc := none, url := none, selftext := none }]

/-- TopicFetcher.fetch_reddit_topics.  The argument is the outcome of the
HTTP fetch plus JSON parse: an error value stands for any raised exception
(network error, bad status, malformed response), an ok value for the parsed
list of post records.  The try/except of the source catches every exception
and substitutes the fallback list, so the embedding is a total function. -/
def fetch_reddit_topics (response : Except String (List RedditPost)) : List Topic :=
  match response with
  | Except.error _ => get_fallback_topics
  | Except.ok posts => ((posts.filter passes_filter).map mk_topic).take 15

/-- The BloggingState fields the workflow nodes and the continuation
predicate touch.  title_suggestions is Option to distinguish a missing key
(the .get default applies) from a present, possibly empty list. -/
structure BloggingState where
  selected_topic : String
  outline : String
  content : String
  optimized_content : String
  title_suggestions : Option (List String)
  seo_score : Int
  readability_score : Nat
  content_quality_score : Nat
  user_feedback : String
  generation_attempts : Nat
  errors : List String
  word_count : Nat
  estimated_read_time : Nat
  keywords : List String
  deriving Inhabited, DecidableEq

/-- Test for the regex match of one-or-more digits then a dot at the start
of a line (the numbered-title filter of generate_title_suggestions_node). -/
def numDotStart (l : List Char) : Bool :=
  let ds := l.takeWhile Char.isDigit
  !ds.isEmpty && ((l.drop ds.length).head? == some '.')

/-- The title list built from a successful LLM response in
generate_title_suggestions_node: stripped lines that are nonempty and
start with a number and a dot. -/
def extract_titles (resp : String) : List String :=
  (((splitNLAux resp.data []).map pyStrL).filter
    (fun l => !l.isEmpty && numDotStart l)).map (fun l => (⟨l⟩ : String))

/-- generate_title_suggestions_node; the Except argument is the outcome of
the LLM call. -/
def generate_title_suggestions_node (s : BloggingState)
    (llm : Except String String) : BloggingState :=
  match llm with
  | Except.ok resp => { s with title_suggestions := some (extract_titles resp) }
  | Except.error e =>
      { s with title_suggestions := some [s.selected_topic], errors := s.errors ++ [e] }

/-- generate_content_node; the Except argument is the outcome of the LLM
call.  The attempt counter advances on both paths. -/
def generate_content_node (s : BloggingState) (llm : Except String String) :
    BloggingState :=
  let attempt := s.generation_attempts + 1
  match llm with
  | Except.ok content =>
      { s with content := content,
               word_count := pyWordCount content,
               estimated_read_time := max 1 (pyWordCount content / 200),
               generation_attempts := attempt }
  | Except.error e =>
      { s with content := "# " ++ s.selected_topic ++ "\n\nFailed to generate content.",
               word_count := 0,
               estimated_read_time := 0,
               generation_attempts := attempt,
               errors := s.errors ++ [e] }

/-- The leading-number strip applied to the chosen title in
content_optimization_node: only the five literal two-character starts are
recognised; on a hit, everything after the first dot is kept and stripped. -/
def stripLeadingNumber (title : String) : String :=
  if (pyStartsWith title "1." || pyStartsWith title "2." || pyStartsWith title "3."
      || pyStartsWith title "4." || pyStartsWith title "5.") = true then
    pyStrip ⟨(title.data.dropWhile (fun c => !(c == '.'))).drop 1⟩
  else title

/-- content_optimization_node.  Returns none exactly when the source would
raise an IndexError: title_suggestions is present but empty while the
stripped content lacks a leading top-level heading marker. -/
def optWith (s : BloggingState) (content : String) : BloggingState :=
  { s with optimized_content := content,
           seo_score := calculate_seo_score content s.selected_topic s.keywords,
           readability_score := calculate_readability_score content,
           content_quality_score := calculate_content_quality_score content s.outline }

def content_optimization_node (s : BloggingState) : Option BloggingState :=
  if pyStartsWith (pyStrip s.content) "# " = true then
    some (optWith s s.content)
  else
    match s.title_suggestions.getD [s.selected_topic] with
    | [] => none
    | t :: _ => some (optWith s ("# " ++ stripLeadingNumber t ++ "\n\n" ++ s.content))

/-- decide_workflow_path, the continuation predicate. -/
def decide_workflow_path (s : BloggingState) : String :=
  if pyStrip (pyLower s.user_feedback) = "approve" then "end"
  else if 3 ≤ s.generation_attempts then "end"
  else if (pyStrip (pyLower s.user_feedback) = "regenerate"
           ∨ pyStrip (pyLower s.user_feedback) = "revise"
           ∨ pyStrip (pyLower s.user_feedback) = "improve") then "regenerate"
  else "regenerate"

/-- The node names of the workflow graph built in BloggingAgent._build_workflow. -/
inductive WNode
  | fetch_topics
  | generate_titles
  | generate_outline
  | generate_content
  | optimize_content
  | endNode
  deriving DecidableEq

/-- The unconditional edges of the graph. -/
def static_edges : WNode → Option WNode
  | WNode.fetch_topics => some WNode.generate_titles
  | WNode.generate_titles => some WNode.generate_outline
  | WNode.generate_outline => some WNode.generate_content
  | WNode.generate_content => some WNode.optimize_content
  | _ => none

/-- The conditional edge mapping attached after optimize_content: the dict
passed to add_conditional_edges, keyed by the decision string. -/
def optimize_edge_map (decision : String) : Option WNode :=
  if decision = "regenerate" then some WNode.generate_content
  else if decision = "end" then some WNode.endNode
  else none

/-- One regenerate cycle: the back edge re-enters at generate_content and
runs optimize_content next. -/
def regenCycle (s : BloggingState) (llm : Except String String) :
    Option BloggingState :=
  content_optimization_node (generate_content_node s llm)

/-- n regenerate cycles in a row, ignoring the continuation predicate; the
oracle gives the LLM outcome of each cycle. -/
def iterCycles (oracle : Nat → Except String String) :
    Nat → BloggingState → Option BloggingState
  | 0, s => some s
  | n + 1, s =>
    match regenCycle s (oracle n) with
    | none => none
    | some s' => iterCycles oracle n s'

/-- The content-generation loop of the compiled graph starting at
generate_content: run a cycle, stop when the continuation predicate says
end, otherwise follow the back edge.  Returns the final state and the
number of content-generation invocations; fuel bounds the recursion. -/
def runContentLoop (oracle : Nat → Except String String) :
    Nat → BloggingState → Nat → Option (BloggingState × Nat)
  | 0, _, _ => none
  | fuel + 1, s, count =>
    match regenCycle s (oracle count) with
    | none => none
    | some s' =>
      if decide_workflow_path s' = "end" then some (s', count + 1)
      else runContentLoop oracle fuel s' (count + 1)

/-- The 0.7-ratio comparison of the source, stated over the rationals, is
the integer comparison the embedding uses. -/
theorem ratio_cond (ch oh : Nat) :
    ((0.7 : ℚ) * (oh : ℚ) ≤ (ch : ℚ)) ↔ 7 * oh ≤ 10 * ch := by
  constructor
  · intro h
    have h10 : (7 : ℚ) * (oh : ℚ) ≤ 10 * (ch : ℚ) := by linarith
    exact_mod_cast h10
  · intro h
    have h10 : (7 : ℚ) * (oh : ℚ) ≤ 10 * (ch : ℚ) := by exact_mod_cast h
    linarith

/-- The SEO score can never fall below 40: the only deduction is the short
content penalty of 20 from the base of 60, and every other term is
nonnegative. -/
theorem seoLowerBound (content topic : String) (keywords : List String) :
    40 ≤ calculate_seo_score content topic keywords := by
  simp only [calculate_seo_score]
  split_ifs <;> omega

/-- C1: decide_workflow_path returns end when the trimmed lower-cased
feedback is approve (checked before the attempt cap), otherwise end when
the attempt count has reached 3, otherwise regenerate; it never returns a
third value. -/
theorem C1_decide_workflow_path_spec : ∀ s : BloggingState,
    (pyStrip (pyLower s.user_feedback) = "approve" → decide_workflow_path s = "end") ∧
    (pyStrip (pyLower s.user_feedback) ≠ "approve" → 3 ≤ s.generation_attempts →
        decide_workflow_path s = "end") ∧
    (pyStrip (pyLower s.user_feedback) ≠ "approve" → s.generation_attempts < 3 →
        decide_workflow_path s = "regenerate") ∧
    (decide_workflow_path s = "end" ∨ decide_workflow_path s = "regenerate") := by
  intro s
  refine ⟨fun h => ?_, fun h1 h2 => ?_, fun h1 h2 => ?_, ?_⟩
  · simp only [decide_workflow_path]
    rw [if_pos h]
  · simp only [decide_workflow_path]
    rw [if_neg h1, if_pos h2]
  · simp only [decide_workflow_path]
    rw [if_neg h1, if_neg (by omega : ¬ 3 ≤ s.generation_attempts)]
    split <;> rfl
  · simp only [decide_workflow_path]
    split_ifs <;> simp

def c1sA : BloggingState :=
  { (default : BloggingState) with user_feedback := "  APPROVE ", generation_attempts := 7 }

def c1sB : BloggingState :=
  { (default : BloggingState) with
      user_feedback := "make the intro punchier"
      generation_attempts := 1 }

/-- Witness for C1: approve feedback at attempt 7 ends the workflow, and
free-text feedback at attempt 1 regenerates. -/
theorem C1_witness :
    decide_workflow_path c1sA = "end" ∧ decide_workflow_path c1sB = "regenerate" :=
  ⟨(C1_decide_workflow_path_spec c1sA).1 (by decide),
   (C1_decide_workflow_path_spec c1sB).2.2.1 (by decide) (by decide)⟩

/-- C4 counterexample: a fetch that succeeds with zero posts is a
zero-results-after-filtering case, and fetch_reddit_topics returns the
empty list there, not the 5-item fallback list the claim demands. -/
theorem C4_counterexample :
    fetch_reddit_topics (Except.ok []) = [] ∧
    fetch_reddit_topics (Except.ok []) ≠ get_fallback_topics := by
  refine ⟨rfl, ?_⟩
  intro h
  rw [show fetch_reddit_topics (Except.ok []) = [] from rfl] at h
  simp [get_fallback_topics] at h

/-- C4 amended: on any raised exception (network error, bad status,
malformed response) fetch_reddit_topics returns the fixed 5-item fallback
list whose first entry has the stated title and score, and it is a total
function of the fetch outcome (errors are absorbed, never re-raised); a
successful fetch with zero results after filtering instead returns the
empty list. -/
theorem C4_fallback_on_exception :
    (∀ e : String, fetch_reddit_topics (Except.error e) = get_fallback_topics) ∧
    get_fallback_topics.length = 5 ∧
    (get_fallback_topics.map Topic.title).head? =
      some "The Future of Artificial Intelligence in 2024" ∧
    (get_fallback_topics.map Topic.score).head? = some 5000 ∧
    fetch_reddit_topics (Except.ok []) = [] :=
  ⟨fun _ => rfl, rfl, rfl, rfl, rfl⟩

/-- C6: the readability score is 0 when the text has no sentence-terminator
run, and otherwise is the step function 85 / 75 / 65 / 50 of the average
whitespace-separated word count per sentence run at the breakpoints
15, 20, 25. -/
theorem C6_readability_spec : ∀ text : String,
    (sentenceCount text = 0 → calculate_readability_score text = 0) ∧
    (sentenceCount text ≠ 0 →
      (((pyWordCount text : ℚ) / (sentenceCount text : ℚ) < 15 →
          calculate_readability_score text = 85) ∧
       (15 ≤ (pyWordCount text : ℚ) / (sentenceCount text : ℚ) →
        (pyWordCount text : ℚ) / (sentenceCount text : ℚ) < 20 →
          calculate_readability_score text = 75) ∧
       (20 ≤ (pyWordCount text : ℚ) / (sentenceCount text : ℚ) →
        (pyWordCount text : ℚ) / (sentenceCount text : ℚ) < 25 →
          calculate_readability_score text = 65) ∧
       (25 ≤ (pyWordCount text : ℚ) / (sentenceCount text : ℚ) →
          calculate_readability_score text = 50))) := by
  intro text
  constructor
  · intro h
    simp only [calculate_readability_score]
    rw [if_pos h]
  · intro h
    have hs : 0 < sentenceCount text := Nat.pos_of_ne_zero h
    have hsq : (0 : ℚ) < (sentenceCount text : ℚ) := by exact_mod_cast hs
    refine ⟨fun hlt => ?_, fun hge hlt => ?_, fun hge hlt => ?_, fun hge => ?_⟩
    · rw [div_lt_iff₀ hsq] at hlt
      have h15 : pyWordCount text < 15 * sentenceCount text := by exact_mod_cast hlt
      simp only [calculate_readability_score]
      rw [if_neg h, if_pos h15]
    · rw [le_div_iff₀ hsq] at hge
      rw [div_lt_iff₀ hsq] at hlt
      have h15 : 15 * sentenceCount text ≤ pyWordCount text := by exact_mod_cast hge
      have h20 : pyWordCount text < 20 * sentenceCount text := by exact_mod_cast hlt
      simp only [calculate_readability_score]
      rw [if_neg h, if_neg (by omega : ¬ pyWordCount text < 15 * sentenceCount text),
        if_pos h20]
    · rw [le_div_iff₀ hsq] at hge
      rw [div_lt_iff₀ hsq] at hlt
      have h20 : 20 * sentenceCount text ≤ pyWordCount text := by exact_mod_cast hge
      have h25 : pyWordCount text < 25 * sentenceCount text := by exact_mod_cast hlt
      simp only [calculate_readability_score]
      rw [if_neg h, if_neg (by omega : ¬ pyWordCount text < 15 * sentenceCount text),
        if_neg (by omega : ¬ pyWordCount text < 20 * sentenceCount text), if_pos h25]
    · rw [le_div_iff₀ hsq] at hge
      have h25 : 25 * sentenceCount text ≤ pyWordCount text := by exact_mod_cast hge
      simp only [calculate_readability_score]
      rw [if_neg h, if_neg (by omega : ¬ pyWordCount text < 15 * sentenceCount text),
        if_neg (by omega : ¬ pyWordCount text < 20 * sentenceCount text),
        if_neg (by omega : ¬ pyWordCount text < 25 * sentenceCount text)]

/-- Witness for C6: a text with two short sentences scores 85, and a text
with no terminators scores 0. -/
theorem C6_witness :
    calculate_readability_score "One two three. Four." = 85 ∧
    calculate_readability_score "no terminators here" = 0 := by
  constructor
  · refine ((C6_readability_spec "One two three. Four.").2 (by decide)).1 ?_
    rw [show sentenceCount "One two three. Four." = 2 from by decide,
      show pyWordCount "One two three. Four." = 4 from by decide]
    norm_num
  · exact (C6_readability_spec "no terminators here").1 (by decide)

/-- C7: the SEO score equals the reference additive formula, base 60 with
the heading, word-count, topic, keyword and second-level-heading terms,
capped above at 100, and it never exceeds 100. -/
theorem C7_seo_score_spec : ∀ (content topic : String) (keywords : List String),
    calculate_seo_score content topic keywords =
      min ((60 : Int)
            + (if pyStartsWith (pyStrip content) "# " = true then 15 else 0)
            + (if 500 ≤ pyWordCount content ∧ pyWordCount content ≤ 2000 then 20 else 0)
            - (if pyWordCount content < 300 then 20 else 0)
            + (if containsSub (pyLower topic).data (pyLower content).data = true
               then 10 else 0)
            + min (3 * (matchedKeywordCount content keywords : Int)) 15
            + (if hasH2 content = true then 10 else 0)) 100
    ∧ calculate_seo_score content topic keywords ≤ 100 := by
  intro content topic keywords
  constructor
  · simp only [calculate_seo_score]
    split_ifs <;> omega
  · simp only [calculate_seo_score]
    exact min_le_right _ _

/-- C8: the content quality score equals the reference additive formula,
base 50 with the outline-coverage (0.7 ratio), introduction, conclusion
and paragraph-depth terms, capped above at 100, and it never exceeds 100. -/
theorem C8_quality_score_spec : ∀ content outline : String,
    calculate_content_quality_score content outline =
      min (50
            + (if (0.7 : ℚ) * (countHeadings outline : ℚ) ≤ (countHeadings content : ℚ)
               then 20 else 0)
            + (if (containsSub "introduction".data (pyLower content).data
                   || pyStartsWith content "# ") = true then 10 else 0)
            + (if (containsSub "conclusion".data (pyLower content).data
                   || containsSub "summary".data (pyLower content).data) = true
               then 10 else 0)
            + (if 5 ≤ paragraphCount content then 10 else 0)) 100
    ∧ calculate_content_quality_score content outline ≤ 100 := by
  intro content outline
  constructor
  · simp only [calculate_content_quality_score, ratio_cond]
    split_ifs <;> omega
  · simp only [calculate_content_quality_score]
    exact min_le_right _ _

/-- C9 counterexample: the claimed negative-score input cannot exist; no
input at all makes the SEO score negative, because the base of 60 less the
single possible deduction of 20 keeps every pre-cap score at 40 or above. -/
theorem C9_counterexample :
    ¬ ∃ (content topic : String) (keywords : List String),
        calculate_seo_score content topic keywords < 0 := by
  rintro ⟨c, t, k, h⟩
  have := seoLowerBound c t k
  omega

/-- C9 amended: the SEO score is bounded below by 40 for every input (in
particular it is never negative), so the missing lower clamp is
unobservable; a very short content with no topic or keyword match attains
exactly 40. -/
theorem C9_score_floor : ∀ (content topic : String) (keywords : List String),
    0 ≤ calculate_seo_score content topic keywords ∧
    40 ≤ calculate_seo_score content topic keywords ∧
    calculate_seo_score "tiny text" "unrelated topic" [] = 40 := by
  intro c t k
  have h := seoLowerBound c t k
  exact ⟨by omega, h, by decide⟩

/-- generate_content_node leaves titles, outline, feedback and topic
unchanged and advances the attempt counter by exactly one, on both the
success and the failure path. -/
theorem generate_content_frame (s : BloggingState) (llm : Except String String) :
    (generate_content_node s llm).title_suggestions = s.title_suggestions ∧
    (generate_content_node s llm).outline = s.outline ∧
    (generate_content_node s llm).user_feedback = s.user_feedback ∧
    (generate_content_node s llm).selected_topic = s.selected_topic ∧
    (generate_content_node s llm).generation_attempts = s.generation_attempts + 1 := by
  cases llm <;> exact ⟨rfl, rfl, rfl, rfl, rfl⟩

/-- content_optimization_node, when it succeeds, leaves titles, outline,
feedback, topic and the attempt counter unchanged. -/
theorem content_optimization_frame (s s' : BloggingState)
    (h : content_optimization_node s = some s') :
    s'.title_suggestions = s.title_suggestions ∧
    s'.outline = s.outline ∧
    s'.user_feedback = s.user_feedback ∧
    s'.selected_topic = s.selected_topic ∧
    s'.generation_attempts = s.generation_attempts := by
  unfold content_optimization_node at h
  split at h
  · cases h
    exact ⟨rfl, rfl, rfl, rfl, rfl⟩
  · split at h
    · simp at h
    · cases h
      exact ⟨rfl, rfl, rfl, rfl, rfl⟩

/-- content_optimization_node succeeds whenever the title-suggestion list
the source indexes into (after the .get default) is nonempty. -/
theorem content_optimization_total (s : BloggingState)
    (h : s.title_suggestions.getD [s.selected_topic] ≠ []) :
    ∃ s', content_optimization_node s = some s' := by
  unfold content_optimization_node
  split
  · exact ⟨_, rfl⟩
  · rcases hm : s.title_suggestions.getD [s.selected_topic] with _ | ⟨t, ts⟩
    · exact absurd hm h
    · exact ⟨_, rfl⟩

/-- One regenerate cycle (generate then optimize) succeeds under the
nonempty-titles precondition, advances the attempt counter by one and
preserves feedback, titles, topic and outline. -/
theorem regenCycle_spec (s : BloggingState) (llm : Except String String)
    (h : s.title_suggestions.getD [s.selected_topic] ≠ []) :
    ∃ s', regenCycle s llm = some s' ∧
      s'.generation_attempts = s.generation_attempts + 1 ∧
      s'.user_feedback = s.user_feedback ∧
      s'.title_suggestions = s.title_suggestions ∧
      s'.selected_topic = s.selected_topic ∧
      s'.outline = s.outline := by
  obtain ⟨ht, ho, hf, hp, ha⟩ := generate_content_frame s llm
  have h1 : (generate_content_node s llm).title_suggestions.getD
      [(generate_content_node s llm).selected_topic] ≠ [] := by
    rw [ht, hp]; exact h
  obtain ⟨s', hs'⟩ := content_optimization_total _ h1
  obtain ⟨ot, oo, od, op, oa⟩ := content_optimization_frame _ _ hs'
  refine ⟨s', hs', ?_, ?_, ?_, ?_, ?_⟩
  · rw [oa, ha]
  · rw [od, hf]
  · rw [ot, ht]
  · rw [op, hp]
  · rw [oo, ho]

/-- n regenerate cycles advance the attempt counter by exactly n. -/
theorem iterCycles_attempts (oracle : Nat → Except String String) :
    ∀ (n : Nat) (s : BloggingState),
      s.title_suggestions.getD [s.selected_topic] ≠ [] →
      ∃ s', iterCycles oracle n s = some s' ∧
        s'.generation_attempts = s.generation_attempts + n ∧
        s'.user_feedback = s.user_feedback ∧
        s'.title_suggestions = s.title_suggestions ∧
        s'.selected_topic = s.selected_topic := by
  intro n
  induction n with
  | zero => exact fun s _ => ⟨s, rfl, rfl, rfl, rfl, rfl⟩
  | succ n ih =>
    intro s h
    obtain ⟨s1, hc, ha, hf, ht, hp, _⟩ := regenCycle_spec s (oracle n) h
    obtain ⟨s', hi, ha', hf', ht', hp'⟩ := ih s1 (by rw [ht, hp]; exact h)
    refine ⟨s', ?_, ?_, ?_, ?_, ?_⟩
    · simp only [iterCycles, hc]
      exact hi
    · rw [ha', ha]; omega
    · rw [hf', hf]
    · rw [ht', ht]
    · rw [hp', hp]

/-- Evaluation of the continuation predicate below the cap with
non-approving feedback. -/
theorem decide_regen (s : BloggingState)
    (hf : pyStrip (pyLower s.user_feedback) ≠ "approve")
    (ha : s.generation_attempts < 3) : decide_workflow_path s = "regenerate" := by
  simp only [decide_workflow_path]
  rw [if_neg hf, if_neg (by omega : ¬ 3 ≤ s.generation_attempts)]
  split <;> rfl

/-- Evaluation of the continuation predicate at or above the cap. -/
theorem decide_cap (s : BloggingState) (ha : 3 ≤ s.generation_attempts) :
    decide_workflow_path s = "end" := by
  simp only [decide_workflow_path]
  split_ifs <;> rfl

/-- Unfolding equation of the loop at positive fuel. -/
theorem runContentLoop_step (oracle : Nat → Except String String) (fuel : Nat)
    (s : BloggingState) (count : Nat) :
    runContentLoop oracle (fuel + 1) s count =
      match regenCycle s (oracle count) with
      | none => none
      | some s' =>
        if decide_workflow_path s' = "end" then some (s', count + 1)
        else runContentLoop oracle fuel s' (count + 1) := rfl

/-- The loop takes the back edge when the cycle result decides regenerate. -/
theorem runContentLoop_cycle (oracle : Nat → Except String String) (fuel : Nat)
    (s : BloggingState) (count : Nat) (s' : BloggingState)
    (hc : regenCycle s (oracle count) = some s')
    (hd : decide_workflow_path s' = "regenerate") :
    runContentLoop oracle (fuel + 1) s count = runContentLoop oracle fuel s' (count + 1) := by
  rw [runContentLoop_step, hc]
  show (if decide_workflow_path s' = "end" then some (s', count + 1)
        else runContentLoop oracle fuel s' (count + 1)) = runContentLoop oracle fuel s' (count + 1)
  rw [hd]
  rfl

/-- The loop stops when the cycle result decides end. -/
theorem runContentLoop_stop (oracle : Nat → Except String String) (fuel : Nat)
    (s : BloggingState) (count : Nat) (s' : BloggingState)
    (hc : regenCycle s (oracle count) = some s')
    (hd : decide_workflow_path s' = "end") :
    runContentLoop oracle (fuel + 1) s count = some (s', count + 1) := by
  rw [runContentLoop_step, hc]
  show (if decide_workflow_path s' = "end" then some (s', count + 1)
        else runContentLoop oracle fuel s' (count + 1)) = some (s', count + 1)
  rw [if_pos hd]

/-- From attempt 0 with feedback that never trims-and-lowers to approve,
the loop performs exactly 3 content generations and stops with the counter
at 3. -/
theorem runContentLoop_cap (oracle : Nat → Except String String) (fuel : Nat)
    (s : BloggingState) (hfuel : 3 ≤ fuel) (h0 : s.generation_attempts = 0)
    (hf : pyStrip (pyLower s.user_feedback) ≠ "approve")
    (ht : s.title_suggestions.getD [s.selected_topic] ≠ []) :
    ∃ sf, runContentLoop oracle fuel s 0 = some (sf, 3) ∧
      sf.generation_attempts = 3 := by
  obtain ⟨k, rfl⟩ : ∃ k, fuel = k + 2 + 1 := ⟨fuel - 3, by omega⟩
  obtain ⟨s1, hc1, ha1, hf1, ht1, hp1, _⟩ := regenCycle_spec s (oracle 0) ht
  have htt1 : s1.title_suggestions.getD [s1.selected_topic] ≠ [] := by
    rw [ht1, hp1]; exact ht
  obtain ⟨s2, hc2, ha2, hf2, ht2, hp2, _⟩ := regenCycle_spec s1 (oracle 1) htt1
  have htt2 : s2.title_suggestions.getD [s2.selected_topic] ≠ [] := by
    rw [ht2, hp2]; exact htt1
  obtain ⟨s3, hc3, ha3, _, _, _, _⟩ := regenCycle_spec s2 (oracle 2) htt2
  have hd1 : decide_workflow_path s1 = "regenerate" :=
    decide_regen s1 (by rw [hf1]; exact hf) (by omega)
  have hd2 : decide_workflow_path s2 = "regenerate" :=
    decide_regen s2 (by rw [hf2, hf1]; exact hf) (by omega)
  have hd3 : decide_workflow_path s3 = "end" := decide_cap s3 (by omega)
  refine ⟨s3, ?_, by omega⟩
  calc runContentLoop oracle (k + 2 + 1) s 0
      = runContentLoop oracle (k + 2) s1 1 :=
        runContentLoop_cycle oracle (k + 2) s 0 s1 hc1 hd1
    _ = runContentLoop oracle (k + 1) s2 2 :=
        runContentLoop_cycle oracle (k + 1) s1 1 s2 hc2 hd2
    _ = some (s3, 3) := runContentLoop_stop oracle k s2 2 s3 hc3 hd3

/-- C2: the content-generation node advances generation_attempts by exactly
1 on every invocation (success or failure of the external generator), the
optimization node never changes it (no node decrements it), n regenerate
cycles from any state advance it by exactly n, and from attempt 0 with
feedback that never means approve (including empty feedback) the loop stops
exactly at the third generation with the counter at 3. -/
theorem C2_attempt_counter :
    (∀ (s : BloggingState) (llm : Except String String),
        (generate_content_node s llm).generation_attempts = s.generation_attempts + 1) ∧
    (∀ s s' : BloggingState, content_optimization_node s = some s' →
        s'.generation_attempts = s.generation_attempts) ∧
    (∀ (oracle : Nat → Except String String) (n : Nat) (s : BloggingState),
        s.title_suggestions.getD [s.selected_topic] ≠ [] →
        ∃ s', iterCycles oracle n s = some s' ∧
          s'.generation_attempts = s.generation_attempts + n) ∧
    (∀ (oracle : Nat → Except String String) (fuel : Nat) (s : BloggingState),
        3 ≤ fuel → s.generation_attempts = 0 →
        pyStrip (pyLower s.user_feedback) ≠ "approve" →
        s.title_suggestions.getD [s.selected_topic] ≠ [] →
        ∃ sf, runContentLoop oracle fuel s 0 = some (sf, 3) ∧
          sf.generation_attempts = 3) := by
  refine ⟨?_, ?_, ?_, ?_⟩
  · exact fun s llm => (generate_content_frame s llm).2.2.2.2
  · exact fun s s' h => (content_optimization_frame s s' h).2.2.2.2
  · intro oracle n s h
    obtain ⟨s', h1, h2, _⟩ := iterCycles_attempts oracle n s h
    exact ⟨s', h1, h2⟩
  · exact fun oracle fuel s h1 h2 h3 h4 => runContentLoop_cap oracle fuel s h1 h2 h3 h4

def oracleOk : Nat → Except String String := fun _ => Except.ok "Generated body text."

def c2s : BloggingState :=
  { (default : BloggingState) with
      selected_topic := "AI"
      title_suggestions := some ["1. Great Title"]
      user_feedback := ""
      generation_attempts := 0 }

def c2final : BloggingState :=
  ((runContentLoop oracleOk 3 c2s 0).getD (default, 0)).1

/-- Witness for C2: with empty feedback and successful generations from
attempt 0, exactly 3 content generations run and the counter ends at 3. -/
theorem C2_witness :
    runContentLoop oracleOk 3 c2s 0 = some (c2final, 3) ∧
    c2final.generation_attempts = 3 := by
  obtain ⟨sf, h1, h2⟩ := C2_attempt_counter.2.2.2 oracleOk 3 c2s (by decide) (by decide)
    (by decide) (by decide)
  have hc : c2final = sf := by
    simp only [c2final, h1, Option.getD_some]
  rw [hc]
  exact ⟨h1, h2⟩

/-- C3: when the continuation predicate selects regenerate, the
conditional edge map of the graph routes to the content-generation node
(whose only outgoing edge leads to optimization), and one regenerate cycle
leaves the title suggestions and the outline of the state unchanged. -/
theorem C3_regenerate_frame :
    (∀ s : BloggingState, decide_workflow_path s = "regenerate" →
        optimize_edge_map (decide_workflow_path s) = some WNode.generate_content) ∧
    static_edges WNode.generate_content = some WNode.optimize_content ∧
    (∀ (s : BloggingState) (llm : Except String String) (s' : BloggingState),
        regenCycle s llm = some s' →
        s'.title_suggestions = s.title_suggestions ∧ s'.outline = s.outline) := by
  refine ⟨?_, rfl, ?_⟩
  · intro s h
    rw [h]
    rfl
  · intro s llm s' h
    have hg := generate_content_frame s llm
    have ho := content_optimization_frame (generate_content_node s llm) s' h
    exact ⟨by rw [ho.1, hg.1], by rw [ho.2.1, hg.2.1]⟩

def c3s : BloggingState :=
  { (default : BloggingState) with
      selected_topic := "AI"
      outline := "## Outline"
      content := "old body"
      title_suggestions := some ["1. Great Title"]
      user_feedback := "tighten the intro"
      generation_attempts := 1 }

def c3s2 : BloggingState :=
  (regenCycle c3s (Except.ok "New body. Text.")).getD default

/-- Witness for C3: a concrete mid-loop state routes back to
generate_content, and a concrete regenerate cycle keeps its titles and
outline. -/
theorem C3_witness :
    optimize_edge_map (decide_workflow_path c3s) = some WNode.generate_content ∧
    c3s2.title_suggestions = c3s.title_suggestions ∧
    c3s2.outline = c3s.outline := by
  have h : regenCycle c3s (Except.ok "New body. Text.") = some c3s2 := by decide
  have hfr := C3_regenerate_frame.2.2 c3s (Except.ok "New body. Text.") c3s2 h
  exact ⟨C3_regenerate_frame.1 c3s (by decide), hfr.1, hfr.2⟩

/-- The injected content of the optimization node starts with the
top-level heading marker literally. -/
theorem startsHash (x y z : String) :
    pyStartsWith ("# " ++ x ++ y ++ z) "# " = true := by
  show leadMatch "# ".data ("# " ++ x ++ y ++ z).data = true
  rw [String.data_append, String.data_append, String.data_append]
  show leadMatch ('#' :: ' ' :: []) ('#' :: ' ' :: (x.data ++ y.data ++ z.data)) = true
  simp [leadMatch]

def c5cx : BloggingState :=
  { (default : BloggingState) with
      selected_topic := "AI"
      content := "Intro text"
      title_suggestions := some ["6. My Great Title"] }

/-- C5 counterexample: with the first title suggestion numbered 6, the
leading number prefix is NOT stripped (the source tests only the literal
two-character starts 1. through 5.), so the optimized content keeps the
6. prefix instead of the stripped heading the claim requires. -/
theorem C5_counterexample :
    (content_optimization_node c5cx).map (fun t => t.optimized_content) =
      some "# 6. My Great Title\n\nIntro text" ∧
    (content_optimization_node c5cx).map (fun t => t.optimized_content) ≠
      some "# My Great Title\n\nIntro text" := by
  exact ⟨by decide, by decide⟩

/-- C5 amended: whenever the optimization node succeeds, the optimized
content starts with the top-level heading marker either literally (the
injection case) or after stripping (the content already carried one); when
the stripped content lacks the marker, the node prepends the heading built
from the first title suggestion when the field holds a nonempty list, with
a leading number prefix stripped only when it is one of the literal starts
1. through 5., and from the topic name (subjected to the same strip) when
the field is absent; the concrete scenario of the claim, content Intro
text with first suggestion 1. My Great Title, is exercised by the witness. -/
theorem C5_heading_normalization : ∀ s s' : BloggingState,
    content_optimization_node s = some s' →
    (pyStartsWith s'.optimized_content "# " = true ∨
      pyStartsWith (pyStrip s'.optimized_content) "# " = true) ∧
    (pyStartsWith (pyStrip s.content) "# " = true → s'.optimized_content = s.content) ∧
    (pyStartsWith (pyStrip s.content) "# " ≠ true →
      ∀ t ts, s.title_suggestions = some (t :: ts) →
        s'.optimized_content = "# " ++ stripLeadingNumber t ++ "\n\n" ++ s.content) ∧
    (pyStartsWith (pyStrip s.content) "# " ≠ true → s.title_suggestions = none →
        s'.optimized_content =
          "# " ++ stripLeadingNumber s.selected_topic ++ "\n\n" ++ s.content) := by
  intro s s' h
  by_cases hc : pyStartsWith (pyStrip s.content) "# " = true
  · unfold content_optimization_node at h
    rw [if_pos hc] at h
    cases h
    refine ⟨Or.inr hc, fun _ => rfl, fun hf => absurd hc hf, fun hf _ => absurd hc hf⟩
  · unfold content_optimization_node at h
    rw [if_neg hc] at h
    rcases hts : s.title_suggestions with _ | l
    · rw [hts] at h
      have h' : some (optWith s
          ("# " ++ stripLeadingNumber s.selected_topic ++ "\n\n" ++ s.content)) = some s' := h
      cases h'
      refine ⟨Or.inl (startsHash _ _ _), fun hT => absurd hT hc, ?_, fun _ _ => rfl⟩
      intro _ t ts hts2
      exact Option.noConfusion hts2
    · rcases l with _ | ⟨t, ts⟩
      · rw [hts] at h
        have h' : (none : Option BloggingState) = some s' := h
        exact Option.noConfusion h'
      · rw [hts] at h
        have h' : some (optWith s
            ("# " ++ stripLeadingNumber t ++ "\n\n" ++ s.content)) = some s' := h
        cases h'
        refine ⟨Or.inl (startsHash _ _ _), fun hT => absurd hT hc, ?_, ?_⟩
        · intro _ t' ts' hts2
          injection hts2 with hts3
          injection hts3 with h3 h4
          rw [← h3]
          exact rfl
        · intro _ hnone
          exact Option.noConfusion hnone

def c5s : BloggingState :=
  { (default : BloggingState) with
      selected_topic := "AI"
      content := "Intro text"
      title_suggestions := some ["1. My Great Title"] }

def c5s2 : BloggingState := (content_optimization_node c5s).getD default

/-- Witness for C5: the concrete scenario of the claim, where the result
is exactly the stripped heading, a blank line, and the original content. -/
theorem C5_witness :
    c5s2.optimized_content = "# " ++ stripLeadingNumber "1. My Great Title" ++ "\n\n" ++ "Intro text" ∧
    c5s2.optimized_content = "# My Great Title\n\nIntro text" := by
  have h : content_optimization_node c5s = some c5s2 := by decide
  have := (C5_heading_normalization c5s c5s2 h).2.2.1 (by decide)
    "1. My Great Title" [] (by decide)
  exact ⟨this, by rw [this]; decide⟩

/-- C10: when the title_suggestions field is present but empty and the
stripped content lacks a leading heading marker, the optimization node
fails (the IndexError of indexing the empty list, modelled as none) instead
of falling back to the topic name; and the title-generation step can
produce exactly that empty list on a successful LLM response none of whose
lines starts with a number and a dot. -/
theorem C10_empty_titles_failure :
    (∀ s : BloggingState, s.title_suggestions = some [] →
        pyStartsWith (pyStrip s.content) "# " ≠ true →
        content_optimization_node s = none) ∧
    (∀ (s : BloggingState) (resp : String), extract_titles resp = [] →
        (generate_title_suggestions_node s (Except.ok resp)).title_suggestions = some []) ∧
    extract_titles "Here are five great titles:\nThe Future of AI\nWhy AI Matters" = [] := by
  refine ⟨?_, ?_, by decide⟩
  · intro s hts hc
    unfold content_optimization_node
    rw [if_neg hc, hts]
    rfl
  · intro s resp h
    simp only [generate_title_suggestions_node, h]

def c10s : BloggingState :=
  { (default : BloggingState) with
      content := "no heading here"
      title_suggestions := some [] }

/-- Witness for C10: the concrete empty-titles state makes the
optimization node fail, and a concrete unnumbered response makes the
title-generation step store the empty list. -/
theorem C10_witness :
    content_optimization_node c10s = none ∧
    (generate_title_suggestions_node c10s
      (Except.ok "Here are five great titles:\nThe Future of AI\nWhy AI Matters")).title_suggestions
      = some [] := by
  refine ⟨C10_empty_titles_failure.1 c10s (by decide) (by decide),
    C10_empty_titles_failure.2.1 c10s _ (by decide)⟩
